import Mathlib

/-!
Verification of `GPUPointCloudRendererComponent.cpp`.

A shallow embedding of `UGPUPointCloudRendererComponent`
(`Source/GPUPointCloudRendererEditor/Private/GPUPointCloudRendererComponent.cpp`).

Engine `float` values are idealised as elements of a field `K`; every arithmetic
operation of the source is read as the exact field operation.  `FMath::Sqrt(3)` is
passed as a parameter `sqrt3 : K`.
-/

namespace GPUPointCloudRenderer

/-! ## Engine value types -/

/-- Engine `FVector`: three coordinates. -/
structure FVector (K : Type) where
  X : K
  Y : K
  Z : K
deriving DecidableEq, Repr

/-- Triangle of the custom mesh (`FCustomMeshTriangle`): three vertices. -/
structure FCustomMeshTriangle (K : Type) where
  Vertex0 : FVector K
  Vertex1 : FVector K
  Vertex2 : FVector K
deriving DecidableEq, Repr

/-- Content standing for a slot that `SetNumUninitialized` added and nobody wrote yet. -/
def FCustomMeshTriangle.uninitialized {K : Type} [Field K] : FCustomMeshTriangle K :=
  ⟨⟨0, 0, 0⟩, ⟨0, 0, 0⟩, ⟨0, 0, 0⟩⟩

/-- `TArray::SetNumUninitialized(NewNum)`: shrink to `NewNum` elements, or grow to
`NewNum` elements without initialising the new slots. -/
def SetNumUninitialized {K : Type} [Field K] (triangles : List (FCustomMeshTriangle K))
    (NewNum : Int) : List (FCustomMeshTriangle K) :=
  triangles.take NewNum.toNat ++
    List.replicate (NewNum.toNat - triangles.length) FCustomMeshTriangle.uninitialized

/-- Body of the `for` loop of `BuildTriangleStack` for loop index `i`: the triangle
stored at `triangles[i]`. -/
def BuildTriangleStack.triangleAt {K : Type} [Field K] (sqrt3 : K) (i : Nat) :
    FCustomMeshTriangle K :=
  let a : K := 1
  let r : K := sqrt3 / 6 * a
  let x : K := 0
  let y : K := 0
  let z : K := (i : K) / 10
  { Vertex2 := ⟨x - a / 2, y - r, z⟩
    Vertex1 := ⟨x + a / 2, y - r, z⟩
    Vertex0 := ⟨x, y + a / sqrt3, z⟩ }

/-- `UGPUPointCloudRendererComponent::BuildTriangleStack(triangles, pointCount)`:
resize the array to `pointCount`, then `for (i = 0; i < pointCount; i++) triangles[i] = t`.
A negative `pointCount` (on which the engine's array resize asserts) is read as an empty
array and a loop that does not run. -/
def BuildTriangleStack {K : Type} [Field K] (sqrt3 : K)
    (triangles : List (FCustomMeshTriangle K)) (pointCount : Int) :
    List (FCustomMeshTriangle K) :=
  (List.range pointCount.toNat).foldl
    (fun tris i => tris.set i (BuildTriangleStack.triangleAt sqrt3 i))
    (SetNumUninitialized triangles pointCount)

/-! ## Further engine value types -/

/-- Engine `FLinearColor`: four float channels (also used to carry point positions). -/
structure FLinearColor (K : Type) where
  R : K
  G : K
  B : K
  A : K
deriving DecidableEq, Repr

/-- Engine `FColor`: four `uint8` channels. -/
structure FColor where
  R : Nat
  G : Nat
  B : Nat
  A : Nat
deriving DecidableEq, Repr

/-- Engine `FRotator`. -/
structure FRotator (K : Type) where
  Pitch : K
  Yaw : K
  Roll : K
deriving DecidableEq, Repr

/-- Engine `FQuat`. -/
structure FQuat (K : Type) where
  X : K
  Y : K
  Z : K
  W : K
deriving DecidableEq, Repr

/-- Engine `FBox`. -/
structure FBox (K : Type) where
  Min : FVector K
  Max : FVector K
  IsValid : Bool
deriving DecidableEq, Repr

/-- Engine `FTransform`: rotation, translation and scale of a scene component. -/
structure FTransform (K : Type) where
  Rotation : FQuat K
  Translation : FVector K
  Scale3D : FVector K
deriving DecidableEq, Repr

/-- Engine `FMatrix`: `M i j` is `M[i][j]`; vectors are rows, the translation is row 3. -/
abbrev FMatrix (K : Type) := Matrix (Fin 4) (Fin 4) K

/-- `FVector * float`: componentwise product with a scalar. -/
def FVector.scale {K : Type} [Field K] (v : FVector K) (s : K) : FVector K :=
  ⟨v.X * s, v.Y * s, v.Z * s⟩

/-- Engine `FTransform::ToMatrixWithScale`. -/
def FTransform.ToMatrixWithScale {K : Type} [Field K] (T : FTransform K) : FMatrix K :=
  let x2 := T.Rotation.X + T.Rotation.X
  let y2 := T.Rotation.Y + T.Rotation.Y
  let z2 := T.Rotation.Z + T.Rotation.Z
  let xx2 := T.Rotation.X * x2
  let yy2 := T.Rotation.Y * y2
  let zz2 := T.Rotation.Z * z2
  let yz2 := T.Rotation.Y * z2
  let wx2 := T.Rotation.W * x2
  let xy2 := T.Rotation.X * y2
  let wz2 := T.Rotation.W * z2
  let xz2 := T.Rotation.X * z2
  let wy2 := T.Rotation.W * y2
  !![(1 - (yy2 + zz2)) * T.Scale3D.X, (xy2 + wz2) * T.Scale3D.X, (xz2 - wy2) * T.Scale3D.X, 0;
     (xy2 - wz2) * T.Scale3D.Y, (1 - (xx2 + zz2)) * T.Scale3D.Y, (yz2 + wx2) * T.Scale3D.Y, 0;
     (xz2 + wy2) * T.Scale3D.Z, (yz2 - wx2) * T.Scale3D.Z, (1 - (xx2 + yy2)) * T.Scale3D.Z, 0;
     T.Translation.X, T.Translation.Y, T.Translation.Z, 1]

/-- Engine `FMatrix::InverseFast`: the inverse matrix, as adjugate over determinant
(for a singular matrix, where the engine yields no finite value, the zero matrix). -/
def FMatrix.InverseFast {K : Type} [Field K] (M : FMatrix K) : FMatrix K :=
  (Matrix.det M)⁻¹ • Matrix.adjugate M

/-- Engine `FMatrix::TransformVector`: the row vector `(V.X, V.Y, V.Z, 0)` times `M`;
the translation row of `M` does not contribute. -/
def FMatrix.TransformVector {K : Type} [Field K] (M : FMatrix K) (V : FVector K) : FVector K :=
  ⟨V.X * M 0 0 + V.Y * M 1 0 + V.Z * M 2 0 + 0 * M 3 0,
   V.X * M 0 1 + V.Y * M 1 1 + V.Z * M 2 1 + 0 * M 3 1,
   V.X * M 0 2 + V.Y * M 1 2 + V.Z * M 2 2 + 0 * M 3 2⟩

/-- Engine `FMatrix::TransformPosition`: the row vector `(V.X, V.Y, V.Z, 1)` times `M`. -/
def FMatrix.TransformPosition {K : Type} [Field K] (M : FMatrix K) (V : FVector K) : FVector K :=
  ⟨V.X * M 0 0 + V.Y * M 1 0 + V.Z * M 2 0 + 1 * M 3 0,
   V.X * M 0 1 + V.Y * M 1 1 + V.Z * M 2 1 + 1 * M 3 1,
   V.X * M 0 2 + V.Y * M 1 2 + V.Z * M 2 2 + 1 * M 3 2⟩

/-- Engine `FMatrix::InverseTransformVector`: `InverseFast().TransformVector(V)`. -/
def FMatrix.InverseTransformVector {K : Type} [Field K] (M : FMatrix K) (V : FVector K) :
    FVector K :=
  (FMatrix.InverseFast M).TransformVector V

/-- Engine `FMatrix::InverseTransformPosition`: `InverseFast().TransformPosition(V)`. -/
def FMatrix.InverseTransformPosition {K : Type} [Field K] (M : FMatrix K) (V : FVector K) :
    FVector K :=
  (FMatrix.InverseFast M).TransformPosition V

/-- Engine `FMatrix::ApplyScale(Scale)`: the uniform scale matrix times `M`. -/
def FMatrix.ApplyScale {K : Type} [Field K] (M : FMatrix K) (Scale : K) : FMatrix K :=
  !![Scale, 0, 0, 0; 0, Scale, 0, 0; 0, 0, Scale, 0; 0, 0, 0, 1] * M

/-- Engine `FMatrix::GetScaledAxis`: row 0, 1 or 2 of the matrix. -/
def FMatrix.GetScaledAxis {K : Type} [Field K] (M : FMatrix K) (Axis : Fin 3) : FVector K :=
  ⟨M Axis.castSucc 0, M Axis.castSucc 1, M Axis.castSucc 2⟩

/-- Two's-complement wrap of an `int32` result. -/
def wrapInt32 (x : Int) : Int :=
  (x + 2 ^ 31) % 2 ^ 32 - 2 ^ 31

/-! ## Objects reachable from the component -/

/-- Line written by `UE_LOG(GPUPointCloudRenderer, ...)`. -/
inductive LogEntry where
  | Error (text : String)
  | Warning (text : String)
deriving DecidableEq, Repr

/-- Call received by the streaming core (`FPointCloudStreamingCore`, declared in
`PointCloudStreamingCore.h`), with its arguments. -/
inductive CoreCall (K : Type) where
  | SetInputLinearColor (pointPositions : List (FLinearColor K)) (pointColors : List FColor)
  | SetInputBytes (pointPositions : List (FLinearColor K)) (pointColors : List Nat)
  | SetInputVector (pointPositions : List (FVector K)) (pointColors : List FColor)
  | AddSnapshot (pointPositions : List (FLinearColor K)) (pointColors : List Nat)
      (offsetTranslation : FVector K) (offsetRotation : FRotator K)
  | SetExtent (extent : FBox K)
  | SavePointPosDataToTexture (pointPosRT : Nat)
  | SaveColorDataToTexture (colorsRT : Nat)
  | SortPointCloudData
  | UpdateDynamicMaterialForStreaming (material : Nat)
  | Update (DeltaTime : K)
deriving DecidableEq, Repr

/-- The streaming core as the component sees it: the calls made on it, oldest first, and
the public member `currentCamPos` the component assigns. -/
structure FPointCloudStreamingCore (K : Type) where
  calls : List (CoreCall K)
  currentCamPos : FVector K
deriving DecidableEq, Repr

/-- Dynamic material instance: its object identity and the parameter values set on it
(latest value of a name first). -/
structure UMaterialInstanceDynamic (K : Type) where
  objectId : Nat
  Parent : Option Nat
  VectorParameterValues : List (String × FVector K)
  ScalarParameterValues : List (String × K)
deriving DecidableEq, Repr

/-- `SetVectorParameterValue(name, value)`. -/
def UMaterialInstanceDynamic.SetVectorParameterValue {K : Type}
    (m : UMaterialInstanceDynamic K) (name : String) (value : FVector K) :
    UMaterialInstanceDynamic K :=
  { m with VectorParameterValues :=
      (name, value) :: m.VectorParameterValues.filter (fun p => p.1 != name) }

/-- `SetScalarParameterValue(name, value)`. -/
def UMaterialInstanceDynamic.SetScalarParameterValue {K : Type}
    (m : UMaterialInstanceDynamic K) (name : String) (value : K) :
    UMaterialInstanceDynamic K :=
  { m with ScalarParameterValues :=
      (name, value) :: m.ScalarParameterValues.filter (fun p => p.1 != name) }

/-- Value currently set for a vector parameter. -/
def UMaterialInstanceDynamic.vectorParameter {K : Type}
    (m : UMaterialInstanceDynamic K) (name : String) : Option (FVector K) :=
  (m.VectorParameterValues.find? (fun p => p.1 == name)).map Prod.snd

/-- Value currently set for a scalar parameter. -/
def UMaterialInstanceDynamic.scalarParameter {K : Type}
    (m : UMaterialInstanceDynamic K) (name : String) : Option K :=
  (m.ScalarParameterValues.find? (fun p => p.1 == name)).map Prod.snd

/-- Proxy mesh component (`UPointCloudMeshComponent`): its object identity and what
`CreateStreamingBaseMesh` sets on it. -/
structure UPointCloudMeshComponent (K : Type) where
  objectId : Nat
  Name : String
  CustomMeshTriangles : List (FCustomMeshTriangle K)
  Registered : Bool
  AttachedToComponent : Bool
  Material0 : Option Nat
  bAbsoluteLocation : Bool
  bAbsoluteRotation : Bool
  bAbsoluteScale : Bool
  bNeverDistanceCull : Bool
deriving DecidableEq, Repr

/-- What the component reads from outside itself: engine globals, the constant of
`PointCloudStreamingCore.h`, float routines, and the answers of the core's queries. -/
structure Context (K : Type) where
  /-- `IGPUPointCloudRenderer::IsAvailable()` -/
  IsAvailable : Bool
  /-- `PCR_MAXTEXRES` -/
  PCR_MAXTEXRES : Int
  /-- `FMath::Sqrt(3)` -/
  Sqrt3 : K
  /-- `GetComponentToWorld()` -/
  ComponentToWorld : FTransform K
  /-- Camera position of the first local player; `none` when `GEngine` is null. -/
  CameraViewPoint : Option (FVector K)
  /-- `FVector::GetSafeNormal` -/
  GetSafeNormal : FVector K → FVector K
  /-- `FBox::ToString` -/
  BoxToString : FBox K → String
  /-- `FPointCloudStreamingCore::SortPointCloudData` return value -/
  SortPointCloudData : FPointCloudStreamingCore K → Bool
  /-- `FPointCloudStreamingCore::GetPointCount` -/
  GetPointCount : FPointCloudStreamingCore K → Int

/-- Member variables of `UGPUPointCloudRendererComponent`, with two counters of engine
side effects: objects created by `NewObject`/`CreateAndSetMaterialInstanceDynamic`
(the next object identity) and one-shot timers set. -/
structure UGPUPointCloudRendererComponent (K : Type) where
  mStreamingBaseMat : Option Nat
  mPointCloudMaterial : Option (UMaterialInstanceDynamic K)
  mPointCloudCore : Option (FPointCloudStreamingCore K)
  mBaseMesh : Option (UPointCloudMeshComponent K)
  mSplatFalloff : K
  mCloudScaling : K
  mSplatSize : K
  mDistanceScaling : K
  mDistanceFalloff : K
  mShouldOverrideColor : Bool
  mExtent : String
  mPointCount : Int
  colorsTempRT : Option Nat
  objectsCreated : Nat
  timersSet : Nat
deriving DecidableEq, Repr

/-- Result of a `void` member function: the component afterwards and the lines logged. -/
abbrev Outcome (K : Type) := UGPUPointCloudRendererComponent K × List LogEntry

/-- `GetComponentScale()`: the scale of the component-to-world transform. -/
def Context.GetComponentScale {K : Type} (C : Context K) : FVector K :=
  C.ComponentToWorld.Scale3D

/-- Make a call on the streaming core the component points to. -/
def UGPUPointCloudRendererComponent.callCore {K : Type}
    (self : UGPUPointCloudRendererComponent K) (c : CoreCall K) :
    UGPUPointCloudRendererComponent K :=
  { self with mPointCloudCore :=
      self.mPointCloudCore.map (fun core => { core with calls := core.calls ++ [c] }) }

/-! ## Member functions -/

/-- Status check `CHECK_PCR_STATUS`: `some` error line when the enclosing function returns. -/
def CHECK_PCR_STATUS {K : Type} (C : Context K) (self : UGPUPointCloudRendererComponent K) :
    Option LogEntry :=
  if !C.IsAvailable then
    some (LogEntry.Error "Point Cloud Renderer module not loaded!")
  else if self.mPointCloudCore.isNone then
    some (LogEntry.Error "Point Cloud Core component not found!")
  else
    none

/-- `UGPUPointCloudRendererComponent::SetDynamicProperties`. -/
def SetDynamicProperties {K : Type} (self : UGPUPointCloudRendererComponent K)
    (cloudScaling falloff splatSize distanceScaling distanceFalloff : K)
    (overrideColor : Bool) : UGPUPointCloudRendererComponent K :=
  { self with
    mSplatFalloff := falloff
    mCloudScaling := cloudScaling
    mSplatSize := splatSize
    mDistanceScaling := distanceScaling
    mDistanceFalloff := distanceFalloff
    mShouldOverrideColor := overrideColor }

/-- `UGPUPointCloudRendererComponent::CreateStreamingBaseMesh`. -/
def CreateStreamingBaseMesh {K : Type} [Field K] (C : Context K)
    (self : UGPUPointCloudRendererComponent K) (pointCount : Int) : Outcome K :=
  match CHECK_PCR_STATUS C self with
  | some err => (self, [err])
  | none =>
    if pointCount == 0 || self.mPointCloudCore.isNone then
      (self, [])
    else
      let triangles := BuildTriangleStack C.Sqrt3 [] pointCount
      let material : UMaterialInstanceDynamic K :=
        { objectId := self.objectsCreated + 1
          Parent := self.mStreamingBaseMat
          VectorParameterValues := []
          ScalarParameterValues := [] }
      let mesh : UPointCloudMeshComponent K :=
        { objectId := self.objectsCreated
          Name := "PointCloud Mesh"
          CustomMeshTriangles := triangles
          Registered := true
          AttachedToComponent := true
          Material0 := some material.objectId
          bAbsoluteLocation := false
          bAbsoluteRotation := true
          bAbsoluteScale := true
          bNeverDistanceCull := true }
      let self := { self with
        mBaseMesh := some mesh
        mPointCloudMaterial := some material
        objectsCreated := self.objectsCreated + 2 }
      (self.callCore (CoreCall.UpdateDynamicMaterialForStreaming material.objectId), [])

/-- Warning logged when positions and colors disagree in number. -/
def countMismatch : LogEntry :=
  LogEntry.Warning "The number of point positions doesn't match the number of point colors."

/-- Error logged on empty input. -/
def emptyInput : LogEntry :=
  LogEntry.Error "Empty point position and/or color data."

/-- `UGPUPointCloudRendererComponent::SetInputAndConvert1`. -/
def SetInputAndConvert1 {K : Type} [Field K] (C : Context K)
    (self : UGPUPointCloudRendererComponent K)
    (pointPositions : List (FLinearColor K)) (pointColors : List FColor) : Outcome K :=
  match CHECK_PCR_STATUS C self with
  | some err => (self, [err])
  | none =>
    let warn := if (pointPositions.length : Int) != pointColors.length then [countMismatch] else []
    if pointPositions.length == 0 || pointColors.length == 0 then
      (self, warn ++ [emptyInput])
    else
      let built := CreateStreamingBaseMesh C self pointPositions.length
      (built.1.callCore (CoreCall.SetInputLinearColor pointPositions pointColors),
        warn ++ built.2)

/-- `UGPUPointCloudRendererComponent::AddSnapshot`. -/
def AddSnapshot {K : Type} [Field K] (C : Context K)
    (self : UGPUPointCloudRendererComponent K)
    (pointPositions : List (FLinearColor K)) (pointColors : List Nat)
    (offsetTranslation : FVector K) (offsetRotation : FRotator K) : Outcome K :=
  match CHECK_PCR_STATUS C self with
  | some err => (self, [err])
  | none =>
    let warn :=
      if wrapInt32 (pointPositions.length * 4) != pointColors.length then [countMismatch] else []
    if pointPositions.length == 0 || pointColors.length == 0 then
      (self, warn ++ [emptyInput])
    else
      let built := CreateStreamingBaseMesh C self (wrapInt32 (C.PCR_MAXTEXRES * C.PCR_MAXTEXRES))
      let objMatrix := C.ComponentToWorld.ToMatrixWithScale
      let offsetTranslation := objMatrix.InverseTransformVector offsetTranslation
      (built.1.callCore
          (CoreCall.AddSnapshot pointPositions pointColors offsetTranslation offsetRotation),
        warn ++ built.2)

/-- `UGPUPointCloudRendererComponent::SetInput`. -/
def SetInput {K : Type} [Field K] (C : Context K)
    (self : UGPUPointCloudRendererComponent K)
    (pointPositions : List (FLinearColor K)) (pointColors : List Nat) : Outcome K :=
  match CHECK_PCR_STATUS C self with
  | some err => (self, [err])
  | none =>
    let warn :=
      if wrapInt32 (pointPositions.length * 4) != pointColors.length then [countMismatch] else []
    if pointPositions.length == 0 || pointColors.length == 0 then
      (self, warn ++ [emptyInput])
    else
      let built := CreateStreamingBaseMesh C self pointPositions.length
      (built.1.callCore (CoreCall.SetInputBytes pointPositions pointColors), warn ++ built.2)

/-- `UGPUPointCloudRendererComponent::SetInputAndConvert2`. -/
def SetInputAndConvert2 {K : Type} [Field K] (C : Context K)
    (self : UGPUPointCloudRendererComponent K)
    (pointPositions : List (FVector K)) (pointColors : List FColor) : Outcome K :=
  match CHECK_PCR_STATUS C self with
  | some err => (self, [err])
  | none =>
    let warn := if (pointPositions.length : Int) != pointColors.length then [countMismatch] else []
    if pointPositions.length == 0 || pointColors.length == 0 then
      (self, warn ++ [emptyInput])
    else
      let built := CreateStreamingBaseMesh C self pointPositions.length
      (built.1.callCore (CoreCall.SetInputVector pointPositions pointColors), warn ++ built.2)

/-- `UGPUPointCloudRendererComponent::SetExtent`. -/
def SetExtent {K : Type} (C : Context K) (self : UGPUPointCloudRendererComponent K)
    (extent : FBox K) : Outcome K :=
  match CHECK_PCR_STATUS C self with
  | some err => (self, [err])
  | none =>
    ({ self.callCore (CoreCall.SetExtent extent) with mExtent := C.BoxToString extent }, [])

/-- `UGPUPointCloudRendererComponent::SaveDataToTexture`; a null render target is `none`. -/
def SaveDataToTexture {K : Type} (C : Context K) (self : UGPUPointCloudRendererComponent K)
    (pointPosRT colorsRT : Option Nat) : Outcome K :=
  match CHECK_PCR_STATUS C self with
  | some err => (self, [err])
  | none =>
    match pointPosRT, colorsRT with
    | some posRT, some colRT =>
      let self := self.callCore (CoreCall.SavePointPosDataToTexture posRT)
      ({ self with timersSet := self.timersSet + 1, colorsTempRT := some colRT }, [])
    | _, _ => (self, [])

/-- `UGPUPointCloudRendererComponent::SortPointCloudForDepth`. -/
def SortPointCloudForDepth {K : Type} (C : Context K)
    (self : UGPUPointCloudRendererComponent K) : Outcome K :=
  match CHECK_PCR_STATUS C self with
  | some err => (self, [err])
  | none =>
    match self.mPointCloudCore with
    | none => (self, [])
    | some core =>
      (self.callCore CoreCall.SortPointCloudData,
        if !C.SortPointCloudData core then
          [LogEntry.Error
            "Could not sort the given data. Please mind the maximum point count for sorting (%d)"]
        else [])

/-- `UGPUPointCloudRendererComponent::SaveColorDataToTextureHelper`. -/
def SaveColorDataToTextureHelper {K : Type} (self : UGPUPointCloudRendererComponent K) :
    UGPUPointCloudRendererComponent K :=
  match self.mPointCloudCore, self.colorsTempRT with
  | some _, some rt => self.callCore (CoreCall.SaveColorDataToTexture rt)
  | _, _ => self

/-- `UGPUPointCloudRendererComponent::UpdateCameraPositionForSorting`; when `GEngine` is
null the local `camPos` is never written, which is read as the zero vector. -/
def UpdateCameraPositionForSorting {K : Type} [Field K] (C : Context K)
    (self : UGPUPointCloudRendererComponent K) : UGPUPointCloudRendererComponent K :=
  let camPos : FVector K := C.CameraViewPoint.getD ⟨0, 0, 0⟩
  let streamingMeshMatrix := C.ComponentToWorld.ToMatrixWithScale
  let streamingMeshMatrix := streamingMeshMatrix.ApplyScale self.mCloudScaling
  let camPos := streamingMeshMatrix.InverseTransformPosition camPos
  { self with mPointCloudCore :=
      self.mPointCloudCore.map (fun core => { core with currentCamPos := camPos }) }

/-- `UGPUPointCloudRendererComponent::UpdateShaderProperties`. -/
def UpdateShaderProperties {K : Type} [Field K] (C : Context K)
    (self : UGPUPointCloudRendererComponent K) : UGPUPointCloudRendererComponent K :=
  match self.mPointCloudMaterial with
  | none => self
  | some material =>
    let streamingMeshMatrix := C.ComponentToWorld.ToMatrixWithScale
    let material := material.SetVectorParameterValue "ObjTransformMatrixXAxis"
      (C.GetSafeNormal (streamingMeshMatrix.GetScaledAxis 0))
    let material := material.SetVectorParameterValue "ObjTransformMatrixYAxis"
      (C.GetSafeNormal (streamingMeshMatrix.GetScaledAxis 1))
    let material := material.SetVectorParameterValue "ObjTransformMatrixZAxis"
      (C.GetSafeNormal (streamingMeshMatrix.GetScaledAxis 2))
    let material := material.SetVectorParameterValue "ObjScale"
      (C.GetComponentScale.scale self.mCloudScaling)
    let material := material.SetScalarParameterValue "FalloffExpo" self.mSplatFalloff
    let material := material.SetScalarParameterValue "SplatSize" self.mSplatSize
    let material := material.SetScalarParameterValue "DistanceScaling" self.mDistanceScaling
    let material := material.SetScalarParameterValue "DistanceFalloff" self.mDistanceFalloff
    let material := material.SetScalarParameterValue "ShouldOverrideColor"
      (if self.mShouldOverrideColor then 1 else 0)
    { self with mPointCloudMaterial := some material }

/-- `UGPUPointCloudRendererComponent::TickComponent`. -/
def TickComponent {K : Type} [Field K] (C : Context K)
    (self : UGPUPointCloudRendererComponent K) (DeltaTime : K) :
    UGPUPointCloudRendererComponent K :=
  let self :=
    match self.mPointCloudCore with
    | none => self
    | some core =>
      let core := { core with calls := core.calls ++ [CoreCall.Update DeltaTime] }
      { self with mPointCloudCore := some core, mPointCount := C.GetPointCount core }
  let self := UpdateShaderProperties C self
  UpdateCameraPositionForSorting C self

/-- Offset translation of the latest call received by the core, when that call is an
`AddSnapshot`. -/
def FPointCloudStreamingCore.lastSnapshotOffset {K : Type} (core : FPointCloudStreamingCore K) :
    Option (FVector K) :=
  match core.calls.getLast? with
  | some (CoreCall.AddSnapshot _ _ offsetTranslation _) => some offsetTranslation
  | _ => none

/-! ## Scenario data -/

/-- An available renderer module around an object at world position `(10, 0, 0)` with
identity rotation and unit scale. -/
def scenarioContext : Context ℚ :=
  { IsAvailable := true
    PCR_MAXTEXRES := 2048
    Sqrt3 := 1732051 / 1000000
    ComponentToWorld := ⟨⟨0, 0, 0, 1⟩, ⟨10, 0, 0⟩, ⟨1, 1, 1⟩⟩
    CameraViewPoint := some ⟨0, 0, 0⟩
    GetSafeNormal := fun v => v
    BoxToString := fun _ => "box"
    SortPointCloudData := fun _ => true
    GetPointCount := fun _ => 0 }

/-- The same surroundings with the renderer module not loaded. -/
def unavailableContext : Context ℚ :=
  { scenarioContext with IsAvailable := false }

/-- A component that owns a streaming core and has built no mesh yet. -/
def scenarioComponent : UGPUPointCloudRendererComponent ℚ :=
  { mStreamingBaseMat := some 0
    mPointCloudMaterial := some ⟨1, some 0, [], []⟩
    mPointCloudCore := some ⟨[], ⟨0, 0, 0⟩⟩
    mBaseMesh := none
    mSplatFalloff := 1
    mCloudScaling := 1
    mSplatSize := 1
    mDistanceScaling := 1
    mDistanceFalloff := 1
    mShouldOverrideColor := false
    mExtent := ""
    mPointCount := 0
    colorsTempRT := none
    objectsCreated := 2
    timersSet := 0 }

/-- A component whose streaming core is null. -/
def corelessComponent : UGPUPointCloudRendererComponent ℚ :=
  { scenarioComponent with mPointCloudCore := none }

/-- Translation of a triangle by a vector, vertex by vertex. -/
def FCustomMeshTriangle.translate {K : Type} [Field K] (d : FVector K)
    (t : FCustomMeshTriangle K) : FCustomMeshTriangle K :=
  { Vertex0 := ⟨t.Vertex0.X + d.X, t.Vertex0.Y + d.Y, t.Vertex0.Z + d.Z⟩
    Vertex1 := ⟨t.Vertex1.X + d.X, t.Vertex1.Y + d.Y, t.Vertex1.Z + d.Z⟩
    Vertex2 := ⟨t.Vertex2.X + d.X, t.Vertex2.Y + d.Y, t.Vertex2.Z + d.Z⟩ }

/-- Squared Euclidean distance of two points. -/
def FVector.distSquared {K : Type} [Field K] (p q : FVector K) : K :=
  (p.X - q.X) ^ 2 + (p.Y - q.Y) ^ 2 + (p.Z - q.Z) ^ 2

/-- Centroid of the three vertices of a triangle. -/
def FCustomMeshTriangle.centroid {K : Type} [Field K] (t : FCustomMeshTriangle K) : FVector K :=
  ⟨(t.Vertex0.X + t.Vertex1.X + t.Vertex2.X) / 3,
   (t.Vertex0.Y + t.Vertex1.Y + t.Vertex2.Y) / 3,
   (t.Vertex0.Z + t.Vertex1.Z + t.Vertex2.Z) / 3⟩

/-! ## Lemmas on the triangle stack -/

theorem SetNumUninitialized_length {K : Type} [Field K]
    (triangles : List (FCustomMeshTriangle K)) (n : Int) :
    (SetNumUninitialized triangles n).length = n.toNat := by
  simp only [SetNumUninitialized, List.length_append, List.length_take, List.length_replicate]
  omega

theorem foldl_set_range {α : Type} (f : Nat → α) (l : List α) (k : Nat) (hk : k ≤ l.length) :
    (List.range k).foldl (fun acc i => acc.set i (f i)) l = (List.range k).map f ++ l.drop k := by
  induction k with
  | zero => simp
  | succ k ih =>
    have hk1 : k ≤ l.length := by omega
    rw [List.range_succ, List.foldl_append, ih hk1]
    simp only [List.foldl_cons, List.foldl_nil, List.map_append, List.map_cons, List.map_nil]
    have hlen : ((List.range k).map f).length = k := by simp
    rw [List.set_append_right _ _ (by simp), hlen, Nat.sub_self]
    have hd : l.drop k = l[k] :: l.drop (k + 1) := by
      rw [List.drop_eq_getElem_cons]
    rw [hd, List.set_cons_zero]
    simp

theorem BuildTriangleStack_eq_map {K : Type} [Field K] (sqrt3 : K)
    (triangles : List (FCustomMeshTriangle K)) (pointCount : Int) :
    BuildTriangleStack sqrt3 triangles pointCount =
      (List.range pointCount.toNat).map (BuildTriangleStack.triangleAt sqrt3) := by
  unfold BuildTriangleStack
  rw [foldl_set_range _ _ _ (by rw [SetNumUninitialized_length])]
  rw [List.drop_of_length_le (by rw [SetNumUninitialized_length])]
  simp

theorem BuildTriangleStack_getElem? {K : Type} [Field K] (sqrt3 : K)
    (triangles : List (FCustomMeshTriangle K)) (pointCount : Int) (i : Nat)
    (hi : (i : Int) < pointCount) :
    (BuildTriangleStack sqrt3 triangles pointCount)[i]? =
      some (BuildTriangleStack.triangleAt sqrt3 i) := by
  have h : i < pointCount.toNat := by omega
  rw [BuildTriangleStack_eq_map, List.getElem?_map, List.getElem?_range h]
  rfl

theorem BuildTriangleStack_length_toNat {K : Type} [Field K] (sqrt3 : K)
    (triangles : List (FCustomMeshTriangle K)) (pointCount : Int) :
    (BuildTriangleStack sqrt3 triangles pointCount).length = pointCount.toNat := by
  rw [BuildTriangleStack_eq_map]
  simp

/-! ## Lemmas on the engine matrices -/

theorem InverseFast_eq_inv {K : Type} [Field K] (M : FMatrix K) :
    FMatrix.InverseFast M = M⁻¹ := by
  simp [FMatrix.InverseFast, Matrix.inv_def, Ring.inverse_eq_inv']

theorem ToMatrixWithScale_translation {K : Type} [Field K] (t : FVector K) :
    FTransform.ToMatrixWithScale ⟨⟨0, 0, 0, 1⟩, t, ⟨1, 1, 1⟩⟩ =
      !![1, 0, 0, 0; 0, 1, 0, 0; 0, 0, 1, 0; t.X, t.Y, t.Z, 1] := by
  simp [FTransform.ToMatrixWithScale]

theorem InverseFast_translation {K : Type} [Field K] (a b c : K) :
    FMatrix.InverseFast (!![1, 0, 0, 0; 0, 1, 0, 0; 0, 0, 1, 0; a, b, c, 1] : FMatrix K) =
      !![1, 0, 0, 0; 0, 1, 0, 0; 0, 0, 1, 0; -a, -b, -c, 1] := by
  rw [InverseFast_eq_inv]
  apply Matrix.inv_eq_left_inv
  ext i j
  fin_cases i <;> fin_cases j <;> simp [Matrix.mul_apply, Fin.sum_univ_four]

theorem InverseTransformVector_translation {K : Type} [Field K] (t v : FVector K) :
    (FTransform.ToMatrixWithScale ⟨⟨0, 0, 0, 1⟩, t, ⟨1, 1, 1⟩⟩).InverseTransformVector v = v := by
  rw [ToMatrixWithScale_translation, FMatrix.InverseTransformVector, InverseFast_translation]
  simp [FMatrix.TransformVector]

theorem InverseTransformPosition_translation {K : Type} [Field K] (t v : FVector K) :
    (FTransform.ToMatrixWithScale ⟨⟨0, 0, 0, 1⟩, t, ⟨1, 1, 1⟩⟩).InverseTransformPosition v =
      ⟨v.X - t.X, v.Y - t.Y, v.Z - t.Z⟩ := by
  rw [ToMatrixWithScale_translation, FMatrix.InverseTransformPosition, InverseFast_translation]
  simp [FMatrix.TransformPosition, sub_eq_add_neg]

/-! ## Lemmas on the member functions -/

theorem CHECK_PCR_STATUS_ok {K : Type} (C : Context K)
    (self : UGPUPointCloudRendererComponent K) (core : FPointCloudStreamingCore K)
    (hA : C.IsAvailable = true) (hC : self.mPointCloudCore = some core) :
    CHECK_PCR_STATUS C self = none := by
  simp [CHECK_PCR_STATUS, hA, hC]

theorem CHECK_PCR_STATUS_fail {K : Type} (C : Context K)
    (self : UGPUPointCloudRendererComponent K)
    (h : C.IsAvailable = false ∨ self.mPointCloudCore = none) :
    ∃ err, CHECK_PCR_STATUS C self = some err := by
  unfold CHECK_PCR_STATUS
  rcases h with h | h
  · simp [h]
  · cases hA : C.IsAvailable <;> simp [h]

theorem CreateStreamingBaseMesh_ok {K : Type} [Field K] (C : Context K)
    (self : UGPUPointCloudRendererComponent K) (core : FPointCloudStreamingCore K)
    (pointCount : Int) (hA : C.IsAvailable = true) (hC : self.mPointCloudCore = some core)
    (hn : pointCount ≠ 0) :
    CreateStreamingBaseMesh C self pointCount =
      ({ self with
          mBaseMesh := some
            { objectId := self.objectsCreated
              Name := "PointCloud Mesh"
              CustomMeshTriangles := BuildTriangleStack C.Sqrt3 [] pointCount
              Registered := true
              AttachedToComponent := true
              Material0 := some (self.objectsCreated + 1)
              bAbsoluteLocation := false
              bAbsoluteRotation := true
              bAbsoluteScale := true
              bNeverDistanceCull := true }
          mPointCloudMaterial := some ⟨self.objectsCreated + 1, self.mStreamingBaseMat, [], []⟩
          objectsCreated := self.objectsCreated + 2
          mPointCloudCore := some
            { core with calls := core.calls ++
                [CoreCall.UpdateDynamicMaterialForStreaming (self.objectsCreated + 1)] } },
        []) := by
  simp [CreateStreamingBaseMesh, CHECK_PCR_STATUS_ok C self core hA hC, hn, hC,
    UGPUPointCloudRendererComponent.callCore]

theorem CreateStreamingBaseMesh_core {K : Type} [Field K] (C : Context K)
    (self : UGPUPointCloudRendererComponent K) (core : FPointCloudStreamingCore K)
    (pointCount : Int) (hA : C.IsAvailable = true) (hC : self.mPointCloudCore = some core) :
    ∃ core1, (CreateStreamingBaseMesh C self pointCount).1.mPointCloudCore = some core1 := by
  by_cases hn : pointCount = 0
  · exact ⟨core, by
      simp [CreateStreamingBaseMesh, CHECK_PCR_STATUS_ok C self core hA hC, hn, hC]⟩
  · rw [CreateStreamingBaseMesh_ok C self core pointCount hA hC hn]
    exact ⟨_, rfl⟩

theorem SetInputAndConvert1_ok {K : Type} [Field K] (C : Context K)
    (self : UGPUPointCloudRendererComponent K) (core : FPointCloudStreamingCore K)
    (positions : List (FLinearColor K)) (colors : List FColor)
    (hA : C.IsAvailable = true) (hC : self.mPointCloudCore = some core)
    (hp : positions ≠ []) (hc : colors ≠ []) :
    (SetInputAndConvert1 C self positions colors).1 =
      (CreateStreamingBaseMesh C self positions.length).1.callCore
        (CoreCall.SetInputLinearColor positions colors) := by
  simp [SetInputAndConvert1, CHECK_PCR_STATUS_ok C self core hA hC, hp, hc]

theorem SetInput_ok {K : Type} [Field K] (C : Context K)
    (self : UGPUPointCloudRendererComponent K) (core : FPointCloudStreamingCore K)
    (positions : List (FLinearColor K)) (bytes : List Nat)
    (hA : C.IsAvailable = true) (hC : self.mPointCloudCore = some core)
    (hp : positions ≠ []) (hb : bytes ≠ []) :
    (SetInput C self positions bytes).1 =
      (CreateStreamingBaseMesh C self positions.length).1.callCore
        (CoreCall.SetInputBytes positions bytes) := by
  simp [SetInput, CHECK_PCR_STATUS_ok C self core hA hC, hp, hb]

theorem SetInputAndConvert2_ok {K : Type} [Field K] (C : Context K)
    (self : UGPUPointCloudRendererComponent K) (core : FPointCloudStreamingCore K)
    (vectors : List (FVector K)) (colors : List FColor)
    (hA : C.IsAvailable = true) (hC : self.mPointCloudCore = some core)
    (hv : vectors ≠ []) (hc : colors ≠ []) :
    (SetInputAndConvert2 C self vectors colors).1 =
      (CreateStreamingBaseMesh C self vectors.length).1.callCore
        (CoreCall.SetInputVector vectors colors) := by
  simp [SetInputAndConvert2, CHECK_PCR_STATUS_ok C self core hA hC, hv, hc]

theorem AddSnapshot_ok {K : Type} [Field K] (C : Context K)
    (self : UGPUPointCloudRendererComponent K) (core : FPointCloudStreamingCore K)
    (positions : List (FLinearColor K)) (bytes : List Nat)
    (offsetTranslation : FVector K) (offsetRotation : FRotator K)
    (hA : C.IsAvailable = true) (hC : self.mPointCloudCore = some core)
    (hp : positions ≠ []) (hb : bytes ≠ []) :
    (AddSnapshot C self positions bytes offsetTranslation offsetRotation).1 =
      (CreateStreamingBaseMesh C self (wrapInt32 (C.PCR_MAXTEXRES * C.PCR_MAXTEXRES))).1.callCore
        (CoreCall.AddSnapshot positions bytes
          (C.ComponentToWorld.ToMatrixWithScale.InverseTransformVector offsetTranslation)
          offsetRotation) := by
  simp [AddSnapshot, CHECK_PCR_STATUS_ok C self core hA hC, hp, hb]

theorem AddSnapshot_lastSnapshotOffset {K : Type} [Field K] (C : Context K)
    (self : UGPUPointCloudRendererComponent K) (core : FPointCloudStreamingCore K)
    (positions : List (FLinearColor K)) (bytes : List Nat)
    (offsetTranslation : FVector K) (offsetRotation : FRotator K)
    (hA : C.IsAvailable = true) (hC : self.mPointCloudCore = some core)
    (hp : positions ≠ []) (hb : bytes ≠ []) :
    (AddSnapshot C self positions bytes offsetTranslation
        offsetRotation).1.mPointCloudCore.bind FPointCloudStreamingCore.lastSnapshotOffset =
      some (C.ComponentToWorld.ToMatrixWithScale.InverseTransformVector offsetTranslation) := by
  rw [AddSnapshot_ok C self core positions bytes offsetTranslation offsetRotation hA hC hp hb]
  obtain ⟨core1, h1⟩ := CreateStreamingBaseMesh_core C self core
    (wrapInt32 (C.PCR_MAXTEXRES * C.PCR_MAXTEXRES)) hA hC
  simp [UGPUPointCloudRendererComponent.callCore, h1,
    FPointCloudStreamingCore.lastSnapshotOffset]

theorem rebuild_twice {K : Type} [Field K] (C : Context K)
    (self : UGPUPointCloudRendererComponent K) (core : FPointCloudStreamingCore K)
    (n1 n2 : Int) (call1 call2 : CoreCall K)
    (hA : C.IsAvailable = true) (hC : self.mPointCloudCore = some core)
    (h1 : n1 ≠ 0) (h2 : n2 ≠ 0) :
    ∃ m1 m2,
      ((CreateStreamingBaseMesh C self n1).1.callCore call1).mBaseMesh = some m1 ∧
      ((CreateStreamingBaseMesh C ((CreateStreamingBaseMesh C self n1).1.callCore call1)
        n2).1.callCore call2).mBaseMesh = some m2 ∧
      m1.objectId = self.objectsCreated ∧
      m2.objectId = self.objectsCreated + 2 ∧
      ((CreateStreamingBaseMesh C self n1).1.callCore call1).objectsCreated =
        self.objectsCreated + 2 ∧
      m1.CustomMeshTriangles = BuildTriangleStack C.Sqrt3 [] n1 ∧
      m2.CustomMeshTriangles = BuildTriangleStack C.Sqrt3 [] n2 := by
  rw [CreateStreamingBaseMesh_ok C self core n1 hA hC h1]
  simp only [UGPUPointCloudRendererComponent.callCore, Option.map_some']
  rw [CreateStreamingBaseMesh_ok C _ _ n2 hA rfl h2]
  refine ⟨_, _, rfl, rfl, ?_⟩
  simp

theorem core_after_build_call {K : Type} [Field K] (C : Context K)
    (self : UGPUPointCloudRendererComponent K) (core : FPointCloudStreamingCore K)
    (n : Int) (call : CoreCall K)
    (hA : C.IsAvailable = true) (hC : self.mPointCloudCore = some core) :
    ∃ core1, ((CreateStreamingBaseMesh C self n).1.callCore call).mPointCloudCore =
      some core1 := by
  obtain ⟨core0, h0⟩ := CreateStreamingBaseMesh_core C self core n hA hC
  simp only [UGPUPointCloudRendererComponent.callCore, h0, Option.map_some']
  exact ⟨_, rfl⟩

theorem twice_of_ok {K : Type} [Field K] {α : Type} (C : Context K)
    (self : UGPUPointCloudRendererComponent K) (core : FPointCloudStreamingCore K)
    (input1 input2 : List α) (call1 call2 : CoreCall K)
    (hA : C.IsAvailable = true) (hC : self.mPointCloudCore = some core)
    (h1 : input1 ≠ []) (hlen : input2.length = input1.length) :
    ∃ m1 m2,
      ((CreateStreamingBaseMesh C self input1.length).1.callCore call1).mBaseMesh = some m1 ∧
      ((CreateStreamingBaseMesh C ((CreateStreamingBaseMesh C self input1.length).1.callCore
        call1) input2.length).1.callCore call2).mBaseMesh = some m2 ∧
      m1.CustomMeshTriangles.length = input2.length ∧
      m2.objectId =
        ((CreateStreamingBaseMesh C self input1.length).1.callCore call1).objectsCreated ∧
      m2.objectId ≠ m1.objectId ∧
      m2.CustomMeshTriangles = m1.CustomMeshTriangles := by
  have hn : (input1.length : Int) ≠ 0 := by
    have := List.length_pos.mpr h1
    omega
  have hn2 : (input2.length : Int) ≠ 0 := by
    rw [hlen]
    exact hn
  obtain ⟨m1, m2, e1, e2, i1, i2, c1, t1, t2⟩ := rebuild_twice C self core input1.length
    input2.length call1 call2 hA hC hn hn2
  refine ⟨m1, m2, e1, e2, ?_, ?_, ?_, ?_⟩
  · rw [t1, BuildTriangleStack_length_toNat, hlen]
    omega
  · rw [c1, i2]
  · rw [i1, i2]
    omega
  · rw [t1, t2, hlen]

/-! ## Claims on the triangle stack -/

/-- C1: for a non-negative `pointCount`, `BuildTriangleStack` leaves the array with exactly
`pointCount` triangles, whatever the array held before the call. -/
theorem BuildTriangleStack_length {K : Type} [Field K] (sqrt3 : K)
    (triangles : List (FCustomMeshTriangle K)) (pointCount : Int) (h : 0 ≤ pointCount) :
    ((BuildTriangleStack sqrt3 triangles pointCount).length : Int) = pointCount := by
  rw [BuildTriangleStack_length_toNat]
  omega

theorem BuildTriangleStack_length_witness :
    (0 : Int) ≤ 3 ∧
      ((BuildTriangleStack (2 : ℚ) [FCustomMeshTriangle.uninitialized] 3).length : Int) = 3 :=
  ⟨by decide, BuildTriangleStack_length (2 : ℚ) [FCustomMeshTriangle.uninitialized] 3 (by decide)⟩

/-- C2: for every index `i < pointCount`, the triangle at index `i` is the triangle at
index `0` translated by `(0, 0, i/10)`: its three vertices have `z = i/10`, and it has the
x and y coordinates of every other triangle of the stack, vertex by vertex. -/
theorem BuildTriangleStack_offset {K : Type} [Field K] (sqrt3 : K)
    (triangles : List (FCustomMeshTriangle K)) (pointCount : Int) (i : Nat)
    (hi : (i : Int) < pointCount) :
    ∃ t t0,
      (BuildTriangleStack sqrt3 triangles pointCount)[i]? = some t ∧
      (BuildTriangleStack sqrt3 triangles pointCount)[0]? = some t0 ∧
      t = t0.translate ⟨0, 0, (i : K) / 10⟩ ∧
      t.Vertex0.Z = (i : K) / 10 ∧ t.Vertex1.Z = (i : K) / 10 ∧ t.Vertex2.Z = (i : K) / 10 ∧
      ∀ j : Nat, (j : Int) < pointCount →
        ∃ u, (BuildTriangleStack sqrt3 triangles pointCount)[j]? = some u ∧
          u.Vertex0.X = t.Vertex0.X ∧ u.Vertex0.Y = t.Vertex0.Y ∧
          u.Vertex1.X = t.Vertex1.X ∧ u.Vertex1.Y = t.Vertex1.Y ∧
          u.Vertex2.X = t.Vertex2.X ∧ u.Vertex2.Y = t.Vertex2.Y := by
  have h0 : ((0 : Nat) : Int) < pointCount := by omega
  refine ⟨BuildTriangleStack.triangleAt sqrt3 i, BuildTriangleStack.triangleAt sqrt3 0,
    BuildTriangleStack_getElem? sqrt3 triangles pointCount i hi,
    BuildTriangleStack_getElem? sqrt3 triangles pointCount 0 h0, ?_, rfl, rfl, rfl, ?_⟩
  · simp [BuildTriangleStack.triangleAt, FCustomMeshTriangle.translate]
  · intro j hj
    exact ⟨BuildTriangleStack.triangleAt sqrt3 j,
      BuildTriangleStack_getElem? sqrt3 triangles pointCount j hj, rfl, rfl, rfl, rfl, rfl, rfl⟩

theorem BuildTriangleStack_offset_witness :
    ∃ t t0 : FCustomMeshTriangle ℚ,
      (BuildTriangleStack (2 : ℚ) [] 2)[1]? = some t ∧
      (BuildTriangleStack (2 : ℚ) [] 2)[0]? = some t0 ∧
      t = t0.translate ⟨0, 0, ((1 : Nat) : ℚ) / 10⟩ ∧
      t.Vertex0.Z = ((1 : Nat) : ℚ) / 10 ∧ t.Vertex1.Z = ((1 : Nat) : ℚ) / 10 ∧
      t.Vertex2.Z = ((1 : Nat) : ℚ) / 10 ∧
      ∀ j : Nat, (j : Int) < 2 →
        ∃ u, (BuildTriangleStack (2 : ℚ) [] 2)[j]? = some u ∧
          u.Vertex0.X = t.Vertex0.X ∧ u.Vertex0.Y = t.Vertex0.Y ∧
          u.Vertex1.X = t.Vertex1.X ∧ u.Vertex1.Y = t.Vertex1.Y ∧
          u.Vertex2.X = t.Vertex2.X ∧ u.Vertex2.Y = t.Vertex2.Y :=
  BuildTriangleStack_offset (2 : ℚ) [] 2 1 (by decide)

/-- C3: with `FMath::Sqrt(3)` read as the real square root of 3, every triangle of the stack
is equilateral of side 1 (the three vertex distances are 1) and its centroid is `(0, 0, z)`,
`z` being the common height of its vertices. -/
theorem BuildTriangleStack_equilateral (triangles : List (FCustomMeshTriangle ℝ))
    (pointCount : Int) (t : FCustomMeshTriangle ℝ)
    (ht : t ∈ BuildTriangleStack (Real.sqrt 3) triangles pointCount) :
    Real.sqrt (t.Vertex0.distSquared t.Vertex1) = 1 ∧
    Real.sqrt (t.Vertex1.distSquared t.Vertex2) = 1 ∧
    Real.sqrt (t.Vertex2.distSquared t.Vertex0) = 1 ∧
    t.Vertex0.Z = t.Vertex1.Z ∧ t.Vertex1.Z = t.Vertex2.Z ∧
    t.centroid = ⟨0, 0, t.Vertex0.Z⟩ := by
  rw [BuildTriangleStack_eq_map, List.mem_map] at ht
  obtain ⟨i, -, rfl⟩ := ht
  have h3 : Real.sqrt 3 * Real.sqrt 3 = 3 := Real.mul_self_sqrt (by norm_num)
  have hne : Real.sqrt 3 ≠ 0 := by
    intro h0
    rw [h0] at h3
    norm_num at h3
  have hinv : 1 / Real.sqrt 3 = Real.sqrt 3 / 3 := by
    rw [div_eq_div_iff hne (by norm_num)]
    linarith
  have e01 : (BuildTriangleStack.triangleAt (Real.sqrt 3) i).Vertex0.distSquared
      (BuildTriangleStack.triangleAt (Real.sqrt 3) i).Vertex1 = 1 := by
    simp only [BuildTriangleStack.triangleAt, FVector.distSquared, hinv]
    nlinarith [h3]
  have e12 : (BuildTriangleStack.triangleAt (Real.sqrt 3) i).Vertex1.distSquared
      (BuildTriangleStack.triangleAt (Real.sqrt 3) i).Vertex2 = 1 := by
    simp only [BuildTriangleStack.triangleAt, FVector.distSquared]
    ring
  have e20 : (BuildTriangleStack.triangleAt (Real.sqrt 3) i).Vertex2.distSquared
      (BuildTriangleStack.triangleAt (Real.sqrt 3) i).Vertex0 = 1 := by
    simp only [BuildTriangleStack.triangleAt, FVector.distSquared, hinv]
    nlinarith [h3]
  refine ⟨by rw [e01, Real.sqrt_one], by rw [e12, Real.sqrt_one], by rw [e20, Real.sqrt_one],
    rfl, rfl, ?_⟩
  simp only [BuildTriangleStack.triangleAt, FCustomMeshTriangle.centroid, hinv,
    FVector.mk.injEq]
  refine ⟨by ring, by ring, by ring⟩

theorem BuildTriangleStack_equilateral_witness :
    BuildTriangleStack.triangleAt (Real.sqrt 3) 0 ∈ BuildTriangleStack (Real.sqrt 3) [] 1 ∧
    Real.sqrt ((BuildTriangleStack.triangleAt (Real.sqrt 3) 0).Vertex0.distSquared
      (BuildTriangleStack.triangleAt (Real.sqrt 3) 0).Vertex1) = 1 :=
  ⟨by simp [BuildTriangleStack_eq_map],
   (BuildTriangleStack_equilateral [] 1 (BuildTriangleStack.triangleAt (Real.sqrt 3) 0)
      (by simp [BuildTriangleStack_eq_map])).1⟩

/-! ## Claims on the input functions -/

/-- C6: in each of `SetInputAndConvert1`, `SetInput`, `SetInputAndConvert2` and
`AddSnapshot`, when the positions array or the colors array is empty the component after
the call is the component before it: no mesh rebuild, no new material instance, no call on
the streaming core. -/
theorem empty_input_no_mutation {K : Type} [Field K] (C : Context K)
    (self : UGPUPointCloudRendererComponent K)
    (positions : List (FLinearColor K)) (vectors : List (FVector K))
    (bytes : List Nat) (colors : List FColor)
    (offsetTranslation : FVector K) (offsetRotation : FRotator K) :
    ((positions = [] ∨ colors = []) → (SetInputAndConvert1 C self positions colors).1 = self) ∧
    ((positions = [] ∨ bytes = []) → (SetInput C self positions bytes).1 = self) ∧
    ((vectors = [] ∨ colors = []) → (SetInputAndConvert2 C self vectors colors).1 = self) ∧
    ((positions = [] ∨ bytes = []) →
      (AddSnapshot C self positions bytes offsetTranslation offsetRotation).1 = self) := by
  refine ⟨?_, ?_, ?_, ?_⟩
  · intro h
    unfold SetInputAndConvert1
    cases CHECK_PCR_STATUS C self with
    | some err => rfl
    | none => rcases h with h | h <;> simp [h]
  · intro h
    unfold SetInput
    cases CHECK_PCR_STATUS C self with
    | some err => rfl
    | none => rcases h with h | h <;> simp [h]
  · intro h
    unfold SetInputAndConvert2
    cases CHECK_PCR_STATUS C self with
    | some err => rfl
    | none => rcases h with h | h <;> simp [h]
  · intro h
    unfold AddSnapshot
    cases CHECK_PCR_STATUS C self with
    | some err => rfl
    | none => rcases h with h | h <;> simp [h]

theorem empty_input_no_mutation_witness :
    (SetInputAndConvert1 scenarioContext scenarioComponent [] [⟨255, 0, 0, 255⟩]).1 =
        scenarioComponent ∧
      (SetInput scenarioContext scenarioComponent [⟨5, 0, 0, 0⟩] []).1 = scenarioComponent ∧
      (SetInputAndConvert2 scenarioContext scenarioComponent [] [⟨255, 0, 0, 255⟩]).1 =
        scenarioComponent ∧
      (AddSnapshot scenarioContext scenarioComponent [⟨5, 0, 0, 0⟩] [] ⟨10, 0, 0⟩ ⟨0, 0, 0⟩).1 =
        scenarioComponent :=
  have h := empty_input_no_mutation scenarioContext scenarioComponent [⟨5, 0, 0, 0⟩] []
    [] [⟨255, 0, 0, 255⟩] ⟨10, 0, 0⟩ ⟨0, 0, 0⟩
  ⟨(empty_input_no_mutation scenarioContext scenarioComponent [] []
      [] [⟨255, 0, 0, 255⟩] ⟨10, 0, 0⟩ ⟨0, 0, 0⟩).1 (Or.inl rfl),
    h.2.1 (Or.inr rfl), h.2.2.1 (Or.inl rfl), h.2.2.2 (Or.inr rfl)⟩

/-- C7: with the module available and the core present, each set-input overload called
with non-empty positions and non-empty colors, of matching lengths or not, leaves a proxy
mesh of exactly as many triangles as positions and hands both arrays to the core as its
latest call. The log is exactly the mismatch warning when the lengths disagree (colors
against positions; bytes against four times the positions, in `int32`) and is empty when
they agree. -/
theorem set_input_builds_and_forwards {K : Type} [Field K] (C : Context K)
    (self : UGPUPointCloudRendererComponent K) (core : FPointCloudStreamingCore K)
    (positions : List (FLinearColor K)) (vectors : List (FVector K))
    (bytes : List Nat) (colors : List FColor)
    (hA : C.IsAvailable = true) (hC : self.mPointCloudCore = some core)
    (hp : positions ≠ []) (hv : vectors ≠ []) (hb : bytes ≠ []) (hc : colors ≠ []) :
    (∃ mesh core1,
      (SetInputAndConvert1 C self positions colors).1.mBaseMesh = some mesh ∧
      mesh.CustomMeshTriangles.length = positions.length ∧
      (SetInputAndConvert1 C self positions colors).1.mPointCloudCore = some core1 ∧
      core1.calls.getLast? = some (CoreCall.SetInputLinearColor positions colors) ∧
      (∀ e ∈ (SetInputAndConvert1 C self positions colors).2, e = countMismatch) ∧
      (SetInputAndConvert1 C self positions colors).2 =
        (if positions.length = colors.length then [] else [countMismatch])) ∧
    (∃ mesh core1,
      (SetInput C self positions bytes).1.mBaseMesh = some mesh ∧
      mesh.CustomMeshTriangles.length = positions.length ∧
      (SetInput C self positions bytes).1.mPointCloudCore = some core1 ∧
      core1.calls.getLast? = some (CoreCall.SetInputBytes positions bytes) ∧
      (∀ e ∈ (SetInput C self positions bytes).2, e = countMismatch) ∧
      (SetInput C self positions bytes).2 =
        (if wrapInt32 ((positions.length : Int) * 4) = (bytes.length : Int) then []
          else [countMismatch]) ∧
      (positions.length * 4 < 2 ^ 31 →
        (SetInput C self positions bytes).2 =
          (if positions.length * 4 = bytes.length then [] else [countMismatch]))) ∧
    (∃ mesh core1,
      (SetInputAndConvert2 C self vectors colors).1.mBaseMesh = some mesh ∧
      mesh.CustomMeshTriangles.length = vectors.length ∧
      (SetInputAndConvert2 C self vectors colors).1.mPointCloudCore = some core1 ∧
      core1.calls.getLast? = some (CoreCall.SetInputVector vectors colors) ∧
      (∀ e ∈ (SetInputAndConvert2 C self vectors colors).2, e = countMismatch) ∧
      (SetInputAndConvert2 C self vectors colors).2 =
        (if vectors.length = colors.length then [] else [countMismatch])) := by
  have hpl : (positions.length : Int) ≠ 0 := by
    have := List.length_pos.mpr hp
    omega
  have hvl : (vectors.length : Int) ≠ 0 := by
    have := List.length_pos.mpr hv
    omega
  have hlen : ∀ n : Nat, (BuildTriangleStack C.Sqrt3 [] (n : Int)).length = n := by
    intro n
    simp [BuildTriangleStack_eq_map]
  refine ⟨?_, ?_, ?_⟩
  · simp only [SetInputAndConvert1, CHECK_PCR_STATUS_ok C self core hA hC,
      CreateStreamingBaseMesh_ok C self core _ hA hC hpl,
      UGPUPointCloudRendererComponent.callCore]
    have hcond : (positions.length == 0 || colors.length == 0) = false := by
      simp [hp, hc]
    simp only [hcond, Bool.false_eq_true, if_false]
    refine ⟨_, _, rfl, hlen _, rfl, by simp, ?_, ?_⟩
    · intro e he
      by_cases h : positions.length = colors.length <;> simp [h] at he
      exact he
    · by_cases h : positions.length = colors.length <;> simp [h]
  · simp only [SetInput, CHECK_PCR_STATUS_ok C self core hA hC,
      CreateStreamingBaseMesh_ok C self core _ hA hC hpl,
      UGPUPointCloudRendererComponent.callCore]
    have hcond : (positions.length == 0 || bytes.length == 0) = false := by
      simp [hp, hb]
    simp only [hcond, Bool.false_eq_true, if_false]
    refine ⟨_, _, rfl, hlen _, rfl, by simp, ?_, ?_, ?_⟩
    · intro e he
      by_cases h : wrapInt32 ((positions.length : Int) * 4) = (bytes.length : Int) <;>
        simp [h] at he
      exact he
    · by_cases h : wrapInt32 ((positions.length : Int) * 4) = (bytes.length : Int) <;>
        simp [h]
    · intro hfit
      have hw : wrapInt32 ((positions.length : Int) * 4) = ((positions.length * 4 : Nat) : Int) := by
        unfold wrapInt32
        push_cast
        omega
      rw [hw]
      by_cases h : positions.length * 4 = bytes.length
      · simp [h]
      · have h' : ((positions.length * 4 : Nat) : Int) ≠ (bytes.length : Int) := by
          intro hh
          exact h (Int.ofNat.inj hh)
        simp [h]
        omega
  · simp only [SetInputAndConvert2, CHECK_PCR_STATUS_ok C self core hA hC,
      CreateStreamingBaseMesh_ok C self core _ hA hC hvl,
      UGPUPointCloudRendererComponent.callCore]
    have hcond : (vectors.length == 0 || colors.length == 0) = false := by
      simp [hv, hc]
    simp only [hcond, Bool.false_eq_true, if_false]
    refine ⟨_, _, rfl, hlen _, rfl, by simp, ?_, ?_⟩
    · intro e he
      by_cases h : vectors.length = colors.length <;> simp [h] at he
      exact he
    · by_cases h : vectors.length = colors.length <;> simp [h]

theorem set_input_builds_and_forwards_witness :
    ∃ mesh core1,
      (SetInput scenarioContext scenarioComponent
        [⟨0, 0, 0, 1⟩, ⟨1, 1, 1, 1⟩] [255, 255, 255]).1.mBaseMesh = some mesh ∧
      mesh.CustomMeshTriangles.length = 2 ∧
      (SetInput scenarioContext scenarioComponent
        [⟨0, 0, 0, 1⟩, ⟨1, 1, 1, 1⟩] [255, 255, 255]).1.mPointCloudCore = some core1 ∧
      core1.calls.getLast? =
        some (CoreCall.SetInputBytes [⟨0, 0, 0, 1⟩, ⟨1, 1, 1, 1⟩] [255, 255, 255]) ∧
      (∀ e ∈ (SetInput scenarioContext scenarioComponent
        [⟨0, 0, 0, 1⟩, ⟨1, 1, 1, 1⟩] [255, 255, 255]).2, e = countMismatch) ∧
      (SetInput scenarioContext scenarioComponent
        [⟨0, 0, 0, 1⟩, ⟨1, 1, 1, 1⟩] [255, 255, 255]).2 = [countMismatch] := by
  obtain ⟨mesh, core1, h1, h2, h3, h4, h5, _, h7⟩ :=
    (set_input_builds_and_forwards scenarioContext scenarioComponent ⟨[], ⟨0, 0, 0⟩⟩
      [⟨0, 0, 0, 1⟩, ⟨1, 1, 1, 1⟩] [⟨0, 0, 0⟩, ⟨1, 1, 1⟩] [255, 255, 255]
      [⟨255, 255, 255, 255⟩, ⟨0, 0, 0, 255⟩] rfl rfl
      (List.cons_ne_nil _ _) (List.cons_ne_nil _ _) (List.cons_ne_nil _ _)
      (List.cons_ne_nil _ _)).2.1
  exact ⟨mesh, core1, h1, h2, h3, h4, h5, (h7 (by decide)).trans (by decide)⟩

/-- C9: with the module available and the core present, `AddSnapshot` called with
non-empty positions and colors builds a proxy mesh of exactly
`PCR_MAXTEXRES * PCR_MAXTEXRES` triangles, whatever the number of incoming points, for a
positive `PCR_MAXTEXRES` whose square is an `int32`. -/
theorem add_snapshot_mesh_size {K : Type} [Field K] (C : Context K)
    (self : UGPUPointCloudRendererComponent K) (core : FPointCloudStreamingCore K)
    (positions : List (FLinearColor K)) (bytes : List Nat)
    (offsetTranslation : FVector K) (offsetRotation : FRotator K)
    (hA : C.IsAvailable = true) (hC : self.mPointCloudCore = some core)
    (hp : positions ≠ []) (hb : bytes ≠ [])
    (hpos : 0 < C.PCR_MAXTEXRES) (hfit : C.PCR_MAXTEXRES * C.PCR_MAXTEXRES < 2 ^ 31) :
    ∃ mesh,
      (AddSnapshot C self positions bytes offsetTranslation offsetRotation).1.mBaseMesh =
        some mesh ∧
      (mesh.CustomMeshTriangles.length : Int) = C.PCR_MAXTEXRES * C.PCR_MAXTEXRES := by
  have hsq : 0 < C.PCR_MAXTEXRES * C.PCR_MAXTEXRES := Int.mul_pos hpos hpos
  have hwrap : wrapInt32 (C.PCR_MAXTEXRES * C.PCR_MAXTEXRES) =
      C.PCR_MAXTEXRES * C.PCR_MAXTEXRES := by
    unfold wrapInt32
    omega
  have hne : wrapInt32 (C.PCR_MAXTEXRES * C.PCR_MAXTEXRES) ≠ 0 := by
    rw [hwrap]
    omega
  simp only [AddSnapshot, CHECK_PCR_STATUS_ok C self core hA hC,
    CreateStreamingBaseMesh_ok C self core _ hA hC hne,
    UGPUPointCloudRendererComponent.callCore]
  simp [hp, hb]
  rw [hwrap, BuildTriangleStack_length_toNat]
  omega

theorem add_snapshot_mesh_size_witness :
    ∃ mesh,
      (AddSnapshot scenarioContext scenarioComponent [⟨5, 0, 0, 1⟩] [255, 0, 0, 255]
        ⟨10, 0, 0⟩ ⟨0, 0, 0⟩).1.mBaseMesh = some mesh ∧
      (mesh.CustomMeshTriangles.length : Int) =
        scenarioContext.PCR_MAXTEXRES * scenarioContext.PCR_MAXTEXRES :=
  add_snapshot_mesh_size scenarioContext scenarioComponent ⟨[], ⟨0, 0, 0⟩⟩
    [⟨5, 0, 0, 1⟩] [255, 0, 0, 255] ⟨10, 0, 0⟩ ⟨0, 0, 0⟩ rfl rfl
    (List.cons_ne_nil _ _) (List.cons_ne_nil _ _) (by decide) (by decide)

/-- C4, as the code has it: two consecutive calls of a set-input overload with position
arrays of the same non-zero length (module available, core present, colors non-empty) both
build the mesh. After the first call the mesh has as many triangles as positions; the
second call still replaces `mBaseMesh` by a newly created object, with the same triangles. -/
theorem set_input_always_rebuilds {K : Type} [Field K] (C : Context K)
    (self : UGPUPointCloudRendererComponent K) (core : FPointCloudStreamingCore K)
    (positions1 positions2 : List (FLinearColor K)) (vectors1 vectors2 : List (FVector K))
    (bytes1 bytes2 : List Nat) (colors1 colors2 : List FColor)
    (hA : C.IsAvailable = true) (hC : self.mPointCloudCore = some core)
    (hp : positions1 ≠ []) (hv : vectors1 ≠ [])
    (hb1 : bytes1 ≠ []) (hb2 : bytes2 ≠ []) (hc1 : colors1 ≠ []) (hc2 : colors2 ≠ [])
    (hlenP : positions2.length = positions1.length)
    (hlenV : vectors2.length = vectors1.length) :
    (∃ m1 m2,
      (SetInputAndConvert1 C self positions1 colors1).1.mBaseMesh = some m1 ∧
      (SetInputAndConvert1 C (SetInputAndConvert1 C self positions1 colors1).1
        positions2 colors2).1.mBaseMesh = some m2 ∧
      m1.CustomMeshTriangles.length = positions2.length ∧
      m2.objectId = (SetInputAndConvert1 C self positions1 colors1).1.objectsCreated ∧
      m2.objectId ≠ m1.objectId ∧
      m2.CustomMeshTriangles = m1.CustomMeshTriangles) ∧
    (∃ m1 m2,
      (SetInput C self positions1 bytes1).1.mBaseMesh = some m1 ∧
      (SetInput C (SetInput C self positions1 bytes1).1 positions2 bytes2).1.mBaseMesh =
        some m2 ∧
      m1.CustomMeshTriangles.length = positions2.length ∧
      m2.objectId = (SetInput C self positions1 bytes1).1.objectsCreated ∧
      m2.objectId ≠ m1.objectId ∧
      m2.CustomMeshTriangles = m1.CustomMeshTriangles) ∧
    (∃ m1 m2,
      (SetInputAndConvert2 C self vectors1 colors1).1.mBaseMesh = some m1 ∧
      (SetInputAndConvert2 C (SetInputAndConvert2 C self vectors1 colors1).1
        vectors2 colors2).1.mBaseMesh = some m2 ∧
      m1.CustomMeshTriangles.length = vectors2.length ∧
      m2.objectId = (SetInputAndConvert2 C self vectors1 colors1).1.objectsCreated ∧
      m2.objectId ≠ m1.objectId ∧
      m2.CustomMeshTriangles = m1.CustomMeshTriangles) := by
  have hp2 : positions2 ≠ [] := by
    intro h
    rw [h] at hlenP
    exact hp (List.length_eq_zero.mp hlenP.symm)
  have hv2 : vectors2 ≠ [] := by
    intro h
    rw [h] at hlenV
    exact hv (List.length_eq_zero.mp hlenV.symm)
  refine ⟨?_, ?_, ?_⟩
  · have s1 := SetInputAndConvert1_ok C self core positions1 colors1 hA hC hp hc1
    obtain ⟨core1, hC1⟩ := core_after_build_call C self core positions1.length
      (CoreCall.SetInputLinearColor positions1 colors1) hA hC
    rw [← s1] at hC1
    have s2 := SetInputAndConvert1_ok C _ core1 positions2 colors2 hA hC1 hp2 hc2
    rw [s1] at s2
    rw [s1, s2]
    exact twice_of_ok C self core _ _ _ _ hA hC hp hlenP
  · have s1 := SetInput_ok C self core positions1 bytes1 hA hC hp hb1
    obtain ⟨core1, hC1⟩ := core_after_build_call C self core positions1.length
      (CoreCall.SetInputBytes positions1 bytes1) hA hC
    rw [← s1] at hC1
    have s2 := SetInput_ok C _ core1 positions2 bytes2 hA hC1 hp2 hb2
    rw [s1] at s2
    rw [s1, s2]
    exact twice_of_ok C self core _ _ _ _ hA hC hp hlenP
  · have s1 := SetInputAndConvert2_ok C self core vectors1 colors1 hA hC hv hc1
    obtain ⟨core1, hC1⟩ := core_after_build_call C self core vectors1.length
      (CoreCall.SetInputVector vectors1 colors1) hA hC
    rw [← s1] at hC1
    have s2 := SetInputAndConvert2_ok C _ core1 vectors2 colors2 hA hC1 hv2 hc2
    rw [s1] at s2
    rw [s1, s2]
    exact twice_of_ok C self core _ _ _ _ hA hC hv hlenV

theorem set_input_always_rebuilds_witness :
    ∃ m1 m2,
      (SetInput scenarioContext scenarioComponent [⟨0, 0, 0, 1⟩] [255, 0, 0, 255]).1.mBaseMesh =
        some m1 ∧
      (SetInput scenarioContext
        (SetInput scenarioContext scenarioComponent [⟨0, 0, 0, 1⟩] [255, 0, 0, 255]).1
        [⟨7, 7, 7, 1⟩] [0, 255, 0, 255]).1.mBaseMesh = some m2 ∧
      m1.CustomMeshTriangles.length = [(⟨7, 7, 7, 1⟩ : FLinearColor ℚ)].length ∧
      m2.objectId =
        (SetInput scenarioContext scenarioComponent
          [⟨0, 0, 0, 1⟩] [255, 0, 0, 255]).1.objectsCreated ∧
      m2.objectId ≠ m1.objectId ∧
      m2.CustomMeshTriangles = m1.CustomMeshTriangles :=
  (set_input_always_rebuilds scenarioContext scenarioComponent ⟨[], ⟨0, 0, 0⟩⟩
    [⟨0, 0, 0, 1⟩] [⟨7, 7, 7, 1⟩] [⟨0, 0, 0⟩] [⟨7, 7, 7⟩]
    [255, 0, 0, 255] [0, 255, 0, 255] [⟨255, 0, 0, 255⟩] [⟨0, 255, 0, 255⟩] rfl rfl
    (List.cons_ne_nil _ _) (List.cons_ne_nil _ _) (List.cons_ne_nil _ _)
    (List.cons_ne_nil _ _) (List.cons_ne_nil _ _) (List.cons_ne_nil _ _) rfl rfl).2.1

/-- Counterexample to a rebuild on count change only: on the scenario component, a second
`SetInput` with the same single position leaves a mesh object different from the one the
first call built, although that one already had one triangle. -/
theorem set_input_same_length_rebuilds :
    (SetInput scenarioContext scenarioComponent [⟨0, 0, 0, 1⟩] [255, 0, 0, 255]).1.mBaseMesh.map
        (fun m => m.CustomMeshTriangles.length) = some 1 ∧
    (SetInput scenarioContext
        (SetInput scenarioContext scenarioComponent [⟨0, 0, 0, 1⟩] [255, 0, 0, 255]).1
        [⟨0, 0, 0, 1⟩] [255, 0, 0, 255]).1.mBaseMesh ≠
      (SetInput scenarioContext scenarioComponent [⟨0, 0, 0, 1⟩] [255, 0, 0, 255]).1.mBaseMesh := by
  obtain ⟨m1, m2, e1, e2, i1, i2, c1, t1, t2⟩ := rebuild_twice scenarioContext scenarioComponent
    ⟨[], ⟨0, 0, 0⟩⟩ 1 1 (CoreCall.SetInputBytes [⟨0, 0, 0, 1⟩] [255, 0, 0, 255])
    (CoreCall.SetInputBytes [⟨0, 0, 0, 1⟩] [255, 0, 0, 255]) rfl rfl (by decide) (by decide)
  have s1 := SetInput_ok scenarioContext scenarioComponent ⟨[], ⟨0, 0, 0⟩⟩
    [⟨0, 0, 0, 1⟩] [255, 0, 0, 255] rfl rfl (List.cons_ne_nil _ _) (List.cons_ne_nil _ _)
  obtain ⟨core1, hcore1⟩ := CreateStreamingBaseMesh_core scenarioContext scenarioComponent
    ⟨[], ⟨0, 0, 0⟩⟩ 1 rfl rfl
  have hC1 : (SetInput scenarioContext scenarioComponent
      [⟨0, 0, 0, 1⟩] [255, 0, 0, 255]).1.mPointCloudCore =
      some { core1 with
        calls := core1.calls ++ [CoreCall.SetInputBytes [⟨0, 0, 0, 1⟩] [255, 0, 0, 255]] } := by
    rw [s1]
    simp [UGPUPointCloudRendererComponent.callCore, hcore1]
  have s2 := SetInput_ok scenarioContext
    (SetInput scenarioContext scenarioComponent [⟨0, 0, 0, 1⟩] [255, 0, 0, 255]).1 _
    [⟨0, 0, 0, 1⟩] [255, 0, 0, 255] rfl hC1 (List.cons_ne_nil _ _) (List.cons_ne_nil _ _)
  have e1' : (SetInput scenarioContext scenarioComponent
      [⟨0, 0, 0, 1⟩] [255, 0, 0, 255]).1.mBaseMesh = some m1 := by
    rw [s1]
    exact e1
  have e2' : (SetInput scenarioContext
      (SetInput scenarioContext scenarioComponent [⟨0, 0, 0, 1⟩] [255, 0, 0, 255]).1
      [⟨0, 0, 0, 1⟩] [255, 0, 0, 255]).1.mBaseMesh = some m2 := by
    rw [s2, s1]
    exact e2
  refine ⟨?_, ?_⟩
  · rw [e1', Option.map_some', t1, BuildTriangleStack_length_toNat]
    rfl
  · rw [e1', e2']
    intro h
    have hid : m2.objectId = m1.objectId := by
      rw [Option.some.inj h]
    rw [i1, i2] at hid
    omega

/-! ## Claims on the snapshot offset -/

/-- C5, as the code has it: on an object with identity rotation and unit scale, at any
world position, `AddSnapshot` (module available, core present, non-empty input) hands the
offset translation to the core unchanged: `InverseTransformVector` leaves the translation
of the world matrix out. In the scenario the core receives `(10, 0, 0)`. -/
theorem add_snapshot_offset_unchanged {K : Type} [Field K] (C : Context K)
    (self : UGPUPointCloudRendererComponent K) (core : FPointCloudStreamingCore K)
    (positions : List (FLinearColor K)) (bytes : List Nat)
    (worldPosition offsetTranslation : FVector K) (offsetRotation : FRotator K)
    (hA : C.IsAvailable = true) (hC : self.mPointCloudCore = some core)
    (hp : positions ≠ []) (hb : bytes ≠ [])
    (hT : C.ComponentToWorld = ⟨⟨0, 0, 0, 1⟩, worldPosition, ⟨1, 1, 1⟩⟩) :
    (AddSnapshot C self positions bytes offsetTranslation
        offsetRotation).1.mPointCloudCore.bind FPointCloudStreamingCore.lastSnapshotOffset =
      some offsetTranslation := by
  rw [AddSnapshot_lastSnapshotOffset C self core positions bytes offsetTranslation
    offsetRotation hA hC hp hb, hT, InverseTransformVector_translation]

theorem add_snapshot_offset_unchanged_witness :
    (AddSnapshot scenarioContext scenarioComponent [⟨5, 0, 0, 1⟩] [255, 0, 0, 255]
        ⟨10, 0, 0⟩ ⟨0, 0, 0⟩).1.mPointCloudCore.bind
        FPointCloudStreamingCore.lastSnapshotOffset =
      some ⟨10, 0, 0⟩ :=
  add_snapshot_offset_unchanged scenarioContext scenarioComponent ⟨[], ⟨0, 0, 0⟩⟩
    [⟨5, 0, 0, 1⟩] [255, 0, 0, 255] ⟨10, 0, 0⟩ ⟨10, 0, 0⟩ ⟨0, 0, 0⟩ rfl rfl
    (List.cons_ne_nil _ _) (List.cons_ne_nil _ _) rfl

/-- Counterexample to the cancelled offset: in the scenario (object at `(10, 0, 0)`,
identity rotation, unit scale, offset `(10, 0, 0)`) the offset the core receives is not
`(0, 0, 0)`. -/
theorem add_snapshot_offset_not_cancelled :
    scenarioContext.ComponentToWorld = ⟨⟨0, 0, 0, 1⟩, ⟨10, 0, 0⟩, ⟨1, 1, 1⟩⟩ ∧
    (AddSnapshot scenarioContext scenarioComponent [⟨5, 0, 0, 1⟩] [255, 0, 0, 255]
        ⟨10, 0, 0⟩ ⟨0, 0, 0⟩).1.mPointCloudCore.bind
        FPointCloudStreamingCore.lastSnapshotOffset ≠
      some ⟨0, 0, 0⟩ := by
  refine ⟨rfl, ?_⟩
  rw [AddSnapshot_lastSnapshotOffset scenarioContext scenarioComponent ⟨[], ⟨0, 0, 0⟩⟩
    [⟨5, 0, 0, 1⟩] [255, 0, 0, 255] ⟨10, 0, 0⟩ ⟨0, 0, 0⟩ rfl rfl
    (List.cons_ne_nil _ _) (List.cons_ne_nil _ _)]
  have hT : scenarioContext.ComponentToWorld = ⟨⟨0, 0, 0, 1⟩, ⟨10, 0, 0⟩, ⟨1, 1, 1⟩⟩ := rfl
  rw [hT, InverseTransformVector_translation]
  intro h
  have hx : (10 : ℚ) = 0 := congrArg FVector.X (Option.some.inj h)
  norm_num at hx

/-! ## Claims on the availability check -/

/-- C8, as the code has it: when the renderer module is not available or the core is null,
the three set-input overloads, `AddSnapshot`, `SetExtent`, `SaveDataToTexture` and
`SortPointCloudForDepth` leave the component as it was. `SetDynamicProperties` makes no
availability check and stores its six arguments. -/
theorem unavailable_no_op {K : Type} [Field K] (C : Context K)
    (self : UGPUPointCloudRendererComponent K)
    (positions : List (FLinearColor K)) (vectors : List (FVector K))
    (bytes : List Nat) (colors : List FColor)
    (offsetTranslation : FVector K) (offsetRotation : FRotator K) (extent : FBox K)
    (pointPosRT colorsRT : Option Nat)
    (cloudScaling falloff splatSize distanceScaling distanceFalloff : K) (overrideColor : Bool)
    (h : C.IsAvailable = false ∨ self.mPointCloudCore = none) :
    (SetInputAndConvert1 C self positions colors).1 = self ∧
    (SetInput C self positions bytes).1 = self ∧
    (SetInputAndConvert2 C self vectors colors).1 = self ∧
    (AddSnapshot C self positions bytes offsetTranslation offsetRotation).1 = self ∧
    (SetExtent C self extent).1 = self ∧
    (SaveDataToTexture C self pointPosRT colorsRT).1 = self ∧
    (SortPointCloudForDepth C self).1 = self ∧
    SetDynamicProperties self cloudScaling falloff splatSize distanceScaling distanceFalloff
        overrideColor =
      { self with
        mSplatFalloff := falloff
        mCloudScaling := cloudScaling
        mSplatSize := splatSize
        mDistanceScaling := distanceScaling
        mDistanceFalloff := distanceFalloff
        mShouldOverrideColor := overrideColor } := by
  obtain ⟨err, he⟩ := CHECK_PCR_STATUS_fail C self h
  refine ⟨?_, ?_, ?_, ?_, ?_, ?_, ?_, rfl⟩
  · simp [SetInputAndConvert1, he]
  · simp [SetInput, he]
  · simp [SetInputAndConvert2, he]
  · simp [AddSnapshot, he]
  · simp [SetExtent, he]
  · simp [SaveDataToTexture, he]
  · simp [SortPointCloudForDepth, he]

theorem unavailable_no_op_witness :
    (SetInput unavailableContext scenarioComponent [⟨5, 0, 0, 1⟩] [255, 0, 0, 255]).1 =
        scenarioComponent ∧
      (SetExtent unavailableContext scenarioComponent ⟨⟨0, 0, 0⟩, ⟨1, 1, 1⟩, true⟩).1 =
        scenarioComponent ∧
      (SortPointCloudForDepth unavailableContext scenarioComponent).1 = scenarioComponent :=
  have h := unavailable_no_op unavailableContext scenarioComponent [⟨5, 0, 0, 1⟩] [⟨5, 0, 0⟩]
    [255, 0, 0, 255] [⟨255, 0, 0, 255⟩] ⟨10, 0, 0⟩ ⟨0, 0, 0⟩ ⟨⟨0, 0, 0⟩, ⟨1, 1, 1⟩, true⟩
    (some 0) (some 1) 1 1 1 1 1 false (Or.inl rfl)
  ⟨h.2.1, h.2.2.2.2.1, h.2.2.2.2.2.2.1⟩

/-- Counterexample to a no-op of every call: with the module not loaded and the core null,
`SetDynamicProperties` still changes the component. -/
theorem set_dynamic_properties_unguarded :
    unavailableContext.IsAvailable = false ∧ corelessComponent.mPointCloudCore = none ∧
    SetDynamicProperties corelessComponent 2 3 4 5 6 true ≠ corelessComponent := by
  refine ⟨rfl, rfl, ?_⟩
  intro h
  have hf : (3 : ℚ) = 1 := congrArg UGPUPointCloudRendererComponent.mSplatFalloff h
  norm_num at hf

/-! ## Claims on the shader parameters -/

/-- C10: after `SetDynamicProperties`, with a material instance bound,
`UpdateShaderProperties` (alone, and as run by `TickComponent`) leaves the same material
instance with `FalloffExpo = falloff`, `SplatSize = splatSize`,
`DistanceScaling = distanceScaling`, `DistanceFalloff = distanceFalloff`,
`ShouldOverrideColor` 1 or 0 as `overrideColor` is set or not, and `ObjScale` the component
scale times `cloudScaling`, coordinate by coordinate. -/
theorem dynamic_properties_pushed {K : Type} [Field K] (C : Context K)
    (self : UGPUPointCloudRendererComponent K) (material : UMaterialInstanceDynamic K)
    (cloudScaling falloff splatSize distanceScaling distanceFalloff : K) (overrideColor : Bool)
    (DeltaTime : K) (hM : self.mPointCloudMaterial = some material) :
    ∀ after,
      (after = UpdateShaderProperties C (SetDynamicProperties self cloudScaling falloff
          splatSize distanceScaling distanceFalloff overrideColor) ∨
       after = TickComponent C (SetDynamicProperties self cloudScaling falloff
          splatSize distanceScaling distanceFalloff overrideColor) DeltaTime) →
      ∃ m, after.mPointCloudMaterial = some m ∧
        m.objectId = material.objectId ∧
        m.scalarParameter "FalloffExpo" = some falloff ∧
        m.scalarParameter "SplatSize" = some splatSize ∧
        m.scalarParameter "DistanceScaling" = some distanceScaling ∧
        m.scalarParameter "DistanceFalloff" = some distanceFalloff ∧
        m.scalarParameter "ShouldOverrideColor" = some (if overrideColor then 1 else 0) ∧
        m.vectorParameter "ObjScale" =
          some ⟨C.ComponentToWorld.Scale3D.X * cloudScaling,
            C.ComponentToWorld.Scale3D.Y * cloudScaling,
            C.ComponentToWorld.Scale3D.Z * cloudScaling⟩ := by
  have key : ∀ s : UGPUPointCloudRendererComponent K,
      s.mPointCloudMaterial = some material → s.mCloudScaling = cloudScaling →
      s.mSplatFalloff = falloff → s.mSplatSize = splatSize →
      s.mDistanceScaling = distanceScaling → s.mDistanceFalloff = distanceFalloff →
      s.mShouldOverrideColor = overrideColor →
      ∃ m, (UpdateShaderProperties C s).mPointCloudMaterial = some m ∧
        m.objectId = material.objectId ∧
        m.scalarParameter "FalloffExpo" = some falloff ∧
        m.scalarParameter "SplatSize" = some splatSize ∧
        m.scalarParameter "DistanceScaling" = some distanceScaling ∧
        m.scalarParameter "DistanceFalloff" = some distanceFalloff ∧
        m.scalarParameter "ShouldOverrideColor" = some (if overrideColor then 1 else 0) ∧
        m.vectorParameter "ObjScale" =
          some ⟨C.ComponentToWorld.Scale3D.X * cloudScaling,
            C.ComponentToWorld.Scale3D.Y * cloudScaling,
            C.ComponentToWorld.Scale3D.Z * cloudScaling⟩ := by
    intro s h1 h2 h3 h4 h5 h6 h7
    simp [UpdateShaderProperties, h1, h2, h3, h4, h5, h6, h7,
      UMaterialInstanceDynamic.SetScalarParameterValue,
      UMaterialInstanceDynamic.SetVectorParameterValue,
      UMaterialInstanceDynamic.scalarParameter, UMaterialInstanceDynamic.vectorParameter,
      Context.GetComponentScale, FVector.scale, List.find?]
  intro after hafter
  rcases hafter with rfl | rfl
  · exact key _ hM rfl rfl rfl rfl rfl rfl
  · unfold TickComponent
    simp only [UpdateCameraPositionForSorting]
    cases hcore : self.mPointCloudCore with
    | none =>
      have hc : (SetDynamicProperties self cloudScaling falloff splatSize distanceScaling
          distanceFalloff overrideColor).mPointCloudCore = none := hcore
      simp only [hc]
      exact key _ hM rfl rfl rfl rfl rfl rfl
    | some core =>
      have hc : (SetDynamicProperties self cloudScaling falloff splatSize distanceScaling
          distanceFalloff overrideColor).mPointCloudCore = some core := hcore
      simp only [hc]
      exact key _ hM rfl rfl rfl rfl rfl rfl

theorem dynamic_properties_pushed_witness :
    ∃ m, (TickComponent scenarioContext
        (SetDynamicProperties scenarioComponent 2 3 4 5 6 true) 1).mPointCloudMaterial = some m ∧
      m.objectId = 1 ∧
      m.scalarParameter "FalloffExpo" = some 3 ∧
      m.scalarParameter "SplatSize" = some 4 ∧
      m.scalarParameter "DistanceScaling" = some 5 ∧
      m.scalarParameter "DistanceFalloff" = some 6 ∧
      m.scalarParameter "ShouldOverrideColor" = some (if true then 1 else 0) ∧
      m.vectorParameter "ObjScale" = some ⟨1 * 2, 1 * 2, 1 * 2⟩ :=
  dynamic_properties_pushed scenarioContext scenarioComponent ⟨1, some 0, [], []⟩
    2 3 4 5 6 true 1 rfl _ (Or.inr rfl)

end GPUPointCloudRenderer
